import Mathlib

/-
Verification development for the ActiveJS core: a shallow embedding of the
value-container engine (`UnitBase` in
src/packages/core/src/lib/abstract-unit-base.ts), its per-flavor type
validators, the persistence bridge (src/packages/core/src/lib/persistence.ts),
the path check (src/packages/core/src/checks/common.ts) and the
AsyncSystem orchestrator (`AsyncSystemBase` in
src/packages/core/src/lib/creators.ts), together with theorems settling the
spec claims about them.

Modelling conventions:
* JS values of a flavor are an abstract type `V` with decidable equality
  (JS strict equality `===`; for objects, `V` is understood to carry object
  identity).  The distinguished JS `undefined` is the `undef` field of the
  flavor; concrete flavors below use `Option α` with `none` as `undefined`.
* `deepCopyMaybe` is the identity (copy-on-read/copy-on-write immutability is
  out of scope of the claims settled here), and the environment flags
  `checkSerializability` / `checkImmutability` are off (their defaults).
* TS `boolean | undefined` config fields are `Option Bool` (`none` =
  undefined), so `x !== false` is `x ≠ some false` and `x === true` is
  `x = some true`, exactly as the source compares them.
* rxjs subjects are modelled by their observable state effects: `emit`
  increments `emitCount` and records `emittedValue`; the on-demand events
  subject is the flag `hasEventsSubject`, and the "dispatch failed" event is
  returned as data by the dispatch operation.
* The persistence bridge stores `JSON.stringify({value})` under the
  namespaced key; serialization of serializable values is modelled as the
  identity round-trip, so a store maps keys to the wrapped value.
-/

namespace ActiveJS

set_option linter.unusedSectionVars false

/-- The per-flavor data fixed at construction: the type validator
(`isValidValue` of BoolUnit/NumUnit/StringUnit/ListUnit/DictUnit/GenericUnit),
the flavor default value (`defaultValue`), the JS `undefined` of the value
type, and the flavor's `isEmpty` predicate on the (fallback-applied) raw
value (`UnitBase.isEmpty` compares with the default; ListUnit/DictUnit
override it structurally). -/
structure Flavor (V : Type) where
  isValidValue : V → Bool
  defaultValue : V
  undef : V
  isEmptyV : V → Bool

/-- The recognized `UnitConfig` options the claims exercise.  `cacheSize` is
`Option Int` (`none` = not a number, falling back to the default 2). -/
structure UnitConfig (V : Type) where
  id : String := ""
  persistent : Bool := false
  distinctDispatchCheck : Option Bool := none
  customDispatchCheck : Option (V → V → Bool) := none
  cacheSize : Option Int := none
  initialValue : V

/-- Options accepted by `dispatch` (`DispatchOptions`); `bypassDebounce` is
irrelevant here because no debounce middleware is installed for the claims
(all dispatches are the synchronous `dispatchActual` path). -/
structure DispatchOptions where
  force : Bool := false
  cacheReplace : Bool := false

/-- Options accepted by `clearCache` (`ClearCacheOptions`). -/
structure ClearCacheOptions where
  leaveFirst : Bool := false
  leaveLast : Bool := false

/-- The reasons of `DispatchFailReason` (src/packages/core/src/models/events.ts);
all four enum members are non-empty strings, hence truthy in the JS
short-circuit chain of `dispatchActual`. -/
inductive DispatchFailReason where
  | FROZEN_UNIT
  | INVALID_VALUE
  | CUSTOM_DISPATCH_CHECK
  | DISTINCT_CHECK
deriving DecidableEq, Repr

/-- The mutable state of a `UnitBase` instance: `_isFrozen`, `_isMuted`,
`emitOnUnmute`, `_value`, `Base.emittedValue`, `_cachedValues`, `_cacheIndex`,
`_initialValue`, `Base.emitCount`, the constructor-computed `cacheSize`, and
whether the on-demand `eventsSubject` has been materialized. -/
structure UnitState (V : Type) where
  isFrozen : Bool := false
  isMuted : Bool := false
  emitOnUnmute : Bool := false
  value : V
  emittedValue : V
  cachedValues : List V := []
  cacheIndex : Nat := 0
  initialValue : V
  emitCount : Nat := 0
  cacheSize : Nat
  hasEventsSubject : Bool := false

/-- External persistent key/value store (`Storage`): keys to the parsed
`{value}` wrapper content, `none` when absent. -/
def Store (V : Type) : Type := String → Option V

/-- The fixed namespace prefix `KeyPrefix = '_AJS_UNIT_'` applied to ids. -/
def storeKey (id : String) : String := "_AJS_UNIT_" ++ id

/-- persistence.ts `save`: store the wrapped value under the namespaced key. -/
def save {V : Type} (key : String) (v : V) (σ : Store V) : Store V :=
  fun k => if k = storeKey key then some v else σ k

/-- persistence.ts `retrieve`: read back the wrapped value, `none` if absent. -/
def retrieve {V : Type} (key : String) (σ : Store V) : Option V :=
  σ (storeKey key)

/-- A store with nothing in it. -/
def emptyStore (V : Type) : Store V := fun _ => none

section UnitOps

variable {V : Type} [DecidableEq V]

/-- `applyFallbackValue`: `value === undefined ? this.defaultValue() : value`. -/
def applyFallbackValue (F : Flavor V) (v : V) : V :=
  if v = F.undef then F.defaultValue else v

/-- `rawValue()`: the current `_value` with the fallback applied. -/
def rawValue (F : Flavor V) (s : UnitState V) : V :=
  applyFallbackValue F s.value

/-- `initialValueRaw()`: `_initialValue` with the fallback applied. -/
def initialValueRaw (F : Flavor V) (s : UnitState V) : V :=
  applyFallbackValue F s.initialValue

/-- The `isEmpty` getter evaluated on the unit (flavor-dispatched). -/
def isEmptyU (F : Flavor V) (s : UnitState V) : Bool :=
  F.isEmptyV (rawValue F s)

/-- `distinctCheck`: `config.distinctDispatchCheck !== true || value !== this.rawValue()`. -/
def distinctCheck (cfg : UnitConfig V) (F : Flavor V) (s : UnitState V) (v : V) : Bool :=
  if cfg.distinctDispatchCheck = some true then decide (v ≠ rawValue F s) else true

/-- `UnitBase.wouldDispatch`: frozen denies; `force` admits; a configured
`customDispatchCheck` returning falsy denies; otherwise the distinct check
decides. -/
def baseWouldDispatch (cfg : UnitConfig V) (F : Flavor V) (s : UnitState V) (v : V)
    (force : Bool) : Bool :=
  if s.isFrozen then false
  else if force then true
  else
    match cfg.customDispatchCheck with
    | some chk => if chk (rawValue F s) v then distinctCheck cfg F s v else false
    | none => distinctCheck cfg F s v

/-- The flavored `wouldDispatch` override (StringUnit/BoolUnit/NumUnit/
ListUnit/DictUnit): `this.isValidValue(value) && super.wouldDispatch(value, force)`.
GenericUnit keeps the base version, whose validator is constantly `true`,
so this single definition covers every flavor. -/
def wouldDispatch (cfg : UnitConfig V) (F : Flavor V) (s : UnitState V) (v : V)
    (force : Bool) : Bool :=
  F.isValidValue v && baseWouldDispatch cfg F s v force

/-- `Base.emit()` with its default argument: bumps `emitCount` and records the
emitted value (`value()` = `rawValue()` under identity copies). -/
def emit (F : Flavor V) (s : UnitState V) : UnitState V :=
  { s with emitCount := s.emitCount + 1, emittedValue := rawValue F s }

/-- `UnitBase.updateCache`.  On `cacheReplace` the entry at `_cacheIndex` is
overwritten in place (a JS assignment at index = length appends; indices
beyond the length do not occur in reachable states).  Otherwise: append and
evict the oldest entry past `cacheSize` when at the last slot (or empty), or
truncate the forward entries (`splice(cacheIndex + 1, count - 1 - cacheIndex,
value)`) and advance the index by one. -/
def updateCache (v : V) (cacheReplace : Bool) (s : UnitState V) : UnitState V :=
  if cacheReplace then
    if s.cacheIndex < s.cachedValues.length then
      { s with cachedValues := s.cachedValues.set s.cacheIndex v }
    else
      { s with cachedValues := s.cachedValues ++ [v] }
  else
    if s.cachedValues.length = 0 ∨ s.cacheIndex = s.cachedValues.length - 1 then
      let grown := s.cachedValues ++ [v]
      let cv := if s.cacheSize < grown.length then grown.drop 1 else grown
      { s with cachedValues := cv, cacheIndex := cv.length - 1 }
    else
      let cv := s.cachedValues.take (s.cacheIndex + 1) ++ [v]
      { s with cachedValues := cv, cacheIndex := s.cacheIndex + 1 }

/-- `updateValueInPersistentStorage`: write-through on persistent units. -/
def updateValueInPersistentStorage (cfg : UnitConfig V) (F : Flavor V) (s : UnitState V)
    (σ : Store V) : Store V :=
  if cfg.persistent then save cfg.id (rawValue F s) σ else σ

/-- `UnitBase.updateValueAndCache`: cache update (unless skipped), install
`_value`, emit (or defer when muted), write through to persistent storage. -/
def updateValueAndCache (cfg : UnitConfig V) (F : Flavor V) (v : V)
    (cacheReplace : Bool) (skipCache : Bool) (s : UnitState V) (σ : Store V) :
    UnitState V × Store V :=
  let s1 := if skipCache then s else updateCache v cacheReplace s
  let s2 := { s1 with value := v }
  let s3 :=
    if s2.isMuted then { s2 with emitOnUnmute := true }
    else emit F { s2 with emitOnUnmute := false }
  (s3, updateValueInPersistentStorage cfg F s3 σ)

/-- Result of a unit operation: the boolean return, the "dispatch failed"
event payload when one is pushed, the new unit state and the new store. -/
structure UnitOpResult (V : Type) where
  ok : Bool := false
  failEvent : Option DispatchFailReason := none
  state : UnitState V
  store : Store V

/-- The `failReason` short-circuit chain of `dispatchActual`, lines 829-835:
`(isFrozen && FROZEN_UNIT) || (isValidValue(value) && (distinctCheck(value) ?
CUSTOM_DISPATCH_CHECK : DISTINCT_CHECK)) || INVALID_VALUE`
(all enum members are truthy strings). -/
def failReason (cfg : UnitConfig V) (F : Flavor V) (s : UnitState V) (v : V) :
    DispatchFailReason :=
  if s.isFrozen then DispatchFailReason.FROZEN_UNIT
  else if F.isValidValue v then
    (if distinctCheck cfg F s v then DispatchFailReason.CUSTOM_DISPATCH_CHECK
     else DispatchFailReason.DISTINCT_CHECK)
  else DispatchFailReason.INVALID_VALUE

/-- `UnitBase.dispatchActual` on a plain value (no producer function):
admission via `wouldDispatch`, then `updateValueAndCache`; on denial a
`EventUnitDispatchFail` with `failReason` is pushed when the events subject
exists and the unit is not muted. -/
def dispatchActual (cfg : UnitConfig V) (F : Flavor V) (v : V) (opts : DispatchOptions)
    (s : UnitState V) (σ : Store V) : UnitOpResult V :=
  if wouldDispatch cfg F s v opts.force then
    let p := updateValueAndCache cfg F v opts.cacheReplace false s σ
    { ok := true, state := p.1, store := p.2 }
  else
    { ok := false,
      failEvent :=
        if s.hasEventsSubject && !s.isMuted then some (failReason cfg F s v) else none,
      state := s, store := σ }

/-- `UnitBase.dispatch` without a configured debounce: `dispatchMiddleware`
is `dispatchActual` itself. -/
def dispatch (cfg : UnitConfig V) (F : Flavor V) (v : V) (opts : DispatchOptions)
    (s : UnitState V) (σ : Store V) : UnitOpResult V :=
  dispatchActual cfg F v opts s σ

/-- `UnitBase.clearValue`: denied when frozen, never emitted, or already
empty; otherwise installs the flavor default directly through
`updateValueAndCache` (no admission pipeline). -/
def clearValue (cfg : UnitConfig V) (F : Flavor V) (s : UnitState V) (σ : Store V) :
    UnitOpResult V :=
  if s.isFrozen || (s.emitCount == 0) || isEmptyU F s then
    { ok := false, state := s, store := σ }
  else
    let p := updateValueAndCache cfg F F.defaultValue false false s σ
    { ok := true, state := p.1, store := p.2 }

/-- `UnitBase.resetValue`: denied when frozen or already at the initial
value; otherwise installs `initialValueRaw()` directly through
`updateValueAndCache` (no admission pipeline). -/
def resetValue (cfg : UnitConfig V) (F : Flavor V) (s : UnitState V) (σ : Store V) :
    UnitOpResult V :=
  if s.isFrozen || (rawValue F s == initialValueRaw F s) then
    { ok := false, state := s, store := σ }
  else
    let p := updateValueAndCache cfg F (initialValueRaw F s) false false s σ
    { ok := true, state := p.1, store := p.2 }

/-- `UnitBase.clearCache`: splice out everything but the optionally preserved
ends and point `_cacheIndex` at the new last slot; `_value` is untouched. -/
def clearCache (opts : ClearCacheOptions) (s : UnitState V) (σ : Store V) :
    UnitOpResult V :=
  let count := s.cachedValues.length
  if s.isFrozen || (count == 0) ||
      ((count == 1) && (opts.leaveFirst || opts.leaveLast)) ||
      ((count == 2) && opts.leaveFirst && opts.leaveLast) then
    { ok := false, state := s, store := σ }
  else
    let start := if opts.leaveFirst then 1 else 0
    let deleteCount := count - start - (if opts.leaveLast then 1 else 0)
    let cv := s.cachedValues.take start ++ s.cachedValues.drop (start + deleteCount)
    { ok := true, state := { s with cachedValues := cv, cacheIndex := cv.length - 1 },
      store := σ }

/-- `UnitBase.jump`: cache navigation; the computed index must land in
bounds and move; the landed-on cached value is re-installed with
`skipCache = true`. -/
def jump (cfg : UnitConfig V) (F : Flavor V) (steps : Int) (s : UnitState V)
    (σ : Store V) : UnitOpResult V :=
  if s.isFrozen then { ok := false, state := s, store := σ }
  else
    let newIndex : Int := (s.cacheIndex : Int) + steps
    if newIndex < 0 ∨ newIndex = (s.cacheIndex : Int) ∨
        (s.cachedValues.length : Int) - 1 < newIndex then
      { ok := false, state := s, store := σ }
    else
      let s1 := { s with cacheIndex := newIndex.toNat }
      let p := updateValueAndCache cfg F (s1.cachedValues.getD s1.cacheIndex F.undef)
        false true s1 σ
      { ok := true, state := p.1, store := p.2 }

/-- `goBack()` is `jump(-1)`. -/
def goBack (cfg : UnitConfig V) (F : Flavor V) (s : UnitState V) (σ : Store V) :
    UnitOpResult V :=
  jump cfg F (-1) s σ

/-- `goForward()` is `jump(1)`. -/
def goForward (cfg : UnitConfig V) (F : Flavor V) (s : UnitState V) (σ : Store V) :
    UnitOpResult V :=
  jump cfg F 1 s σ

/-- `jumpToStart()` is `jump(-cacheIndex)`. -/
def jumpToStart (cfg : UnitConfig V) (F : Flavor V) (s : UnitState V) (σ : Store V) :
    UnitOpResult V :=
  jump cfg F (-(s.cacheIndex : Int)) s σ

/-- `jumpToEnd()` is `jump(cachedValuesCount - 1 - cacheIndex)`. -/
def jumpToEnd (cfg : UnitConfig V) (F : Flavor V) (s : UnitState V) (σ : Store V) :
    UnitOpResult V :=
  jump cfg F ((s.cachedValues.length : Int) - 1 - (s.cacheIndex : Int)) s σ

/-- `freeze()`: sets the flag (the guard only avoids a duplicate event). -/
def freeze (s : UnitState V) : UnitState V :=
  if s.isFrozen then s else { s with isFrozen := true }

/-- `unfreeze()`: clears the flag when set. -/
def unfreeze (s : UnitState V) : UnitState V :=
  if s.isFrozen then { s with isFrozen := false } else s

/-- `UnitBase.clear`: unfreeze, then `clearValue`, then `clearCache`. -/
def clear (cfg : UnitConfig V) (F : Flavor V) (opts : ClearCacheOptions)
    (s : UnitState V) (σ : Store V) : UnitOpResult V :=
  let s1 := unfreeze s
  let r1 := clearValue cfg F s1 σ
  let r2 := clearCache opts r1.state r1.store
  { ok := true, state := r2.state, store := r2.store }

/-- `UnitBase.reset`: unfreeze, then `resetValue`, then `clearCache` (the
caller passes `{leaveLast: true}` by default). -/
def reset (cfg : UnitConfig V) (F : Flavor V) (opts : ClearCacheOptions)
    (s : UnitState V) (σ : Store V) : UnitOpResult V :=
  let s1 := unfreeze s
  let r1 := resetValue cfg F s1 σ
  let r2 := clearCache opts r1.state r1.store
  { ok := true, state := r2.state, store := r2.store }

/-- `shouldDispatchInitialValue`: defined (`!== undefined`) and valid for the
flavor; the custom and distinct dispatch checks are not consulted here. -/
def shouldDispatchInitialValue (F : Flavor V) (iv : V) : Bool :=
  decide (iv ≠ F.undef) && F.isValidValue iv

/-- `dispatchInitialValue`: install the initial value when
`shouldDispatchInitialValue` admits it, else install the flavor default. -/
def dispatchInitialValue (cfg : UnitConfig V) (F : Flavor V) (iv : V)
    (s : UnitState V) (σ : Store V) : UnitState V × Store V :=
  if shouldDispatchInitialValue F iv then
    let s1 := { s with initialValue := iv }
    updateValueAndCache cfg F (initialValueRaw F s1) false false s1 σ
  else
    updateValueAndCache cfg F F.defaultValue false false s σ

/-- `restoreValueFromPersistentStorage`: a previously saved value seeds the
unit instead of the supplied initial value. -/
def restoreValueFromPersistentStorage (cfg : UnitConfig V) (F : Flavor V) (iv : V)
    (s : UnitState V) (σ : Store V) : UnitState V × Store V :=
  match retrieve cfg.id σ with
  | some v => dispatchInitialValue cfg F v s σ
  | none => dispatchInitialValue cfg F iv s σ

/-- The `UnitBase` constructor: compute `cacheSize` (`isNumber(cacheSize) ?
Math.max(1, cacheSize) : 2`), then seed the value from persistent storage or
from the configured initial value.  No debounce middleware is installed for
the configurations the claims exercise. -/
def mkUnit (cfg : UnitConfig V) (F : Flavor V) (σ : Store V) : UnitState V × Store V :=
  let cs : Nat :=
    match cfg.cacheSize with
    | some n => (max 1 n).toNat
    | none => 2
  let s : UnitState V :=
    { value := F.undef, emittedValue := F.undef, initialValue := F.undef, cacheSize := cs }
  if cfg.persistent then restoreValueFromPersistentStorage cfg F cfg.initialValue s σ
  else dispatchInitialValue cfg F cfg.initialValue s σ

end UnitOps

/-- StringUnit's value universe: `none` is JS `undefined`, `some str` a
string; `isValidValue` is `typeof value === 'string'`, the default is the
empty string, `isEmpty` compares the raw value with the default. -/
def strFlavor : Flavor (Option String) :=
  { isValidValue := fun v => v.isSome
    defaultValue := some ""
    undef := none
    isEmptyV := fun v => v == some "" }

/-- NumUnit's value universe (numbers as integers suffice for the claims). -/
def numFlavor : Flavor (Option Int) :=
  { isValidValue := fun v => v.isSome
    defaultValue := some 0
    undef := none
    isEmptyV := fun v => v == some 0 }

/-- BoolUnit's value universe; the default value is `false`. -/
def boolFlavor : Flavor (Option Bool) :=
  { isValidValue := fun v => v.isSome
    defaultValue := some false
    undef := none
    isEmptyV := fun v => v == some false }

/-- A JS value in a Selection path position, classified by `typeof`: a
string, a number (JS numbers are modelled as rationals, covering negative
and non-integer numbers), or anything else. -/
inductive JSKey where
  | str (s : String)
  | num (q : Rat)
  | other
deriving DecidableEq

/-- `typeof key === 'string' || typeof key === 'number'`. -/
def keyIsStringOrNumber : JSKey → Bool
  | JSKey.str _ => true
  | JSKey.num _ => true
  | JSKey.other => false

/-- `checkPath` (src/packages/core/src/checks/common.ts): throws on an empty
path, and throws when `findIndex` locates a segment that is neither a string
nor a number.  `true` means a `TypeError` is thrown. -/
def checkPathThrows (path : List JSKey) : Bool :=
  if path.length = 0 then true
  else (path.findIdx? (fun k => !keyIsStringOrNumber k)).isSome

/-- Modelled from the spec: a segment the spec admits must be "a string or
non-negative integer". -/
def specSegmentOk : JSKey → Bool
  | JSKey.str _ => true
  | JSKey.num q => decide (0 ≤ q ∧ q.den = 1)
  | JSKey.other => false

/-- Modelled from the spec: the claimed construction-failure condition,
"the path is empty or some segment is not a string or non-negative integer". -/
def claimedPathFails (path : List JSKey) : Bool :=
  path.isEmpty || path.any (fun k => !specSegmentOk k)

/- ----------------------------------------------------------------------
AsyncSystemBase (src/packages/core/src/lib/creators.ts): four member units
with fixed roles, the two pause flags, and the synchronous future-stream
relationships.  Member emissions run the subscribed relationship handlers
synchronously; the handlers' own sibling writes are gated by
`relationshipsAutoPaused`.  The orchestrator's own emissions are counted in
`sysEmitCount`.  Each member keeps its own persistent store (they live under
distinct namespaced keys of the shared storage).
---------------------------------------------------------------------- -/

/-- The boolean config surface of `AsyncSystemBaseConfig` the relationships
read (each `Option Bool`, `none` = unset). -/
structure AsyncSysConfig where
  clearErrorOnData : Option Bool := none
  clearErrorOnQuery : Option Bool := none
  clearDataOnQuery : Option Bool := none
  clearDataOnError : Option Bool := none
  clearQueryOnData : Option Bool := none
  clearQueryOnError : Option Bool := none
  autoUpdatePendingValue : Option Bool := none
  freezeQueryWhilePending : Option Bool := none

/-- The flavors and configs of the four member units plus the system config. -/
structure SysParams (Q D E : Type) where
  FQ : Flavor Q
  FD : Flavor D
  FE : Flavor E
  cfgQ : UnitConfig Q
  cfgD : UnitConfig D
  cfgE : UnitConfig E
  cfgP : UnitConfig (Option Bool)
  cfg : AsyncSysConfig

/-- The state of an `AsyncSystemBase`: the four member unit states and their
stores, the two pause flags, and the count of the system's own emissions. -/
structure AsyncSysState (Q D E : Type) where
  queryUnit : UnitState Q
  dataUnit : UnitState D
  errorUnit : UnitState E
  pendingUnit : UnitState (Option Bool)
  storeQ : Store Q
  storeD : Store D
  storeE : Store E
  storeP : Store (Option Bool)
  relationshipsAutoPaused : Bool := false
  relationshipsManuallyPaused : Bool := false
  sysEmitCount : Nat := 0

section SysOps

variable {Q D E : Type} [DecidableEq Q] [DecidableEq D] [DecidableEq E]

/-- `relationshipsWorking`: neither auto- nor manually paused. -/
def relationshipsWorking (sys : AsyncSysState Q D E) : Bool :=
  !sys.relationshipsAutoPaused && !sys.relationshipsManuallyPaused

/-- `AsyncSystemBase.emit`: one combined-value emission of the system. -/
def sysEmit (sys : AsyncSysState Q D E) : AsyncSysState Q D E :=
  { sys with sysEmitCount := sys.sysEmitCount + 1 }

/-- `toggleQueryUnitFreezeMaybe`: freeze/unfreeze the query member when
`freezeQueryWhilePending` is configured. -/
def toggleQueryUnitFreezeMaybe (p : SysParams Q D E) (isPending : Bool)
    (sys : AsyncSysState Q D E) : AsyncSysState Q D E :=
  if p.cfg.freezeQueryWhilePending = some true then
    if isPending then { sys with queryUnit := freeze sys.queryUnit }
    else { sys with queryUnit := unfreeze sys.queryUnit }
  else sys

/-- The subscription on `pendingUnit.future$`: toggle the query freeze
(unless manually paused), then emit the combined value if the relationships
are working.  It performs no member dispatches, so it never re-enters. -/
def handlePendingEmit (p : SysParams Q D E) (isPending : Bool)
    (sys : AsyncSysState Q D E) : AsyncSysState Q D E :=
  let sys1 :=
    if !sys.relationshipsManuallyPaused then toggleQueryUnitFreezeMaybe p isPending sys
    else sys
  if relationshipsWorking sys1 then sysEmit sys1 else sys1

/-- `autoUpdatePendingValue`: dispatch `isPending` on the pending member
(unless disabled), and run the pending handler when that actually emitted. -/
def autoUpdatePendingStep (p : SysParams Q D E) (isPending : Bool)
    (sys : AsyncSysState Q D E) : AsyncSysState Q D E :=
  if p.cfg.autoUpdatePendingValue ≠ some false then
    let r := dispatchActual p.cfgP boolFlavor (some isPending) {} sys.pendingUnit sys.storeP
    let sys1 := { sys with pendingUnit := r.state, storeP := r.store }
    if r.state.emitCount ≠ sys.pendingUnit.emitCount then
      handlePendingEmit p (rawValue boolFlavor r.state = some true) sys1
    else sys1
  else sys

/-- The three member roles whose future-stream handlers run an
`execute*UnitRelationship` body. -/
inductive SysRole where
  | query
  | data
  | error

/-- The `execute{Query,Data,Error}UnitRelationship` bodies.  Each sets
`relationshipsAutoPaused`, updates the pending member, performs its
configured sibling clears, clears the flag and emits once.  A sibling clear
that emits invokes that sibling's subscribed handler, which re-enters this
function only when `relationshipsWorking` — impossible while
`relationshipsAutoPaused` is set, so the structural `fuel` never runs out on
a path the source can take (any fuel ≥ 1 below the top level is exact). -/
def execRelationship (p : SysParams Q D E) :
    Nat → SysRole → AsyncSysState Q D E → AsyncSysState Q D E
  | 0, _, sys => sys
  | Nat.succ fuel, SysRole.query, sys =>
    let sys := { sys with relationshipsAutoPaused := true }
    let sys := autoUpdatePendingStep p true sys
    let sys :=
      if p.cfg.clearDataOnQuery = some true then
        let r := clearValue p.cfgD p.FD sys.dataUnit sys.storeD
        let sys1 := { sys with dataUnit := r.state, storeD := r.store }
        if r.state.emitCount ≠ sys.dataUnit.emitCount ∧ relationshipsWorking sys1 then
          execRelationship p fuel SysRole.data sys1
        else sys1
      else sys
    let sys :=
      if p.cfg.clearErrorOnQuery = some true then
        let r := clearValue p.cfgE p.FE sys.errorUnit sys.storeE
        let sys1 := { sys with errorUnit := r.state, storeE := r.store }
        if r.state.emitCount ≠ sys.errorUnit.emitCount ∧ relationshipsWorking sys1 then
          execRelationship p fuel SysRole.error sys1
        else sys1
      else sys
    sysEmit { sys with relationshipsAutoPaused := false }
  | Nat.succ fuel, SysRole.data, sys =>
    let sys := { sys with relationshipsAutoPaused := true }
    let sys := autoUpdatePendingStep p false sys
    let sys :=
      if p.cfg.clearErrorOnQuery ≠ some true ∧ p.cfg.clearErrorOnData ≠ some false then
        let r := clearValue p.cfgE p.FE sys.errorUnit sys.storeE
        let sys1 := { sys with errorUnit := r.state, storeE := r.store }
        if r.state.emitCount ≠ sys.errorUnit.emitCount ∧ relationshipsWorking sys1 then
          execRelationship p fuel SysRole.error sys1
        else sys1
      else sys
    let sys :=
      if p.cfg.clearQueryOnData = some true then
        let r := clearValue p.cfgQ p.FQ sys.queryUnit sys.storeQ
        let sys1 := { sys with queryUnit := r.state, storeQ := r.store }
        if r.state.emitCount ≠ sys.queryUnit.emitCount ∧ relationshipsWorking sys1 then
          execRelationship p fuel SysRole.query sys1
        else sys1
      else sys
    sysEmit { sys with relationshipsAutoPaused := false }
  | Nat.succ fuel, SysRole.error, sys =>
    let sys := { sys with relationshipsAutoPaused := true }
    let sys := autoUpdatePendingStep p false sys
    let sys :=
      if p.cfg.clearDataOnQuery ≠ some true ∧ p.cfg.clearDataOnError = some true then
        let r := clearValue p.cfgD p.FD sys.dataUnit sys.storeD
        let sys1 := { sys with dataUnit := r.state, storeD := r.store }
        if r.state.emitCount ≠ sys.dataUnit.emitCount ∧ relationshipsWorking sys1 then
          execRelationship p fuel SysRole.data sys1
        else sys1
      else sys
    let sys :=
      if p.cfg.clearQueryOnError = some true then
        let r := clearValue p.cfgQ p.FQ sys.queryUnit sys.storeQ
        let sys1 := { sys with queryUnit := r.state, storeQ := r.store }
        if r.state.emitCount ≠ sys.queryUnit.emitCount ∧ relationshipsWorking sys1 then
          execRelationship p fuel SysRole.query sys1
        else sys1
      else sys
    sysEmit { sys with relationshipsAutoPaused := false }

/-- A caller dispatch on the data member seen at the system level: the unit
dispatch runs, and if the data member actually emitted, its future-stream
subscription fires `executeDataUnitRelationship` when the relationships are
working.  The fuel 4 is more than the guarded recursion can consume. -/
def systemDispatchToData (p : SysParams Q D E) (v : D) (sys : AsyncSysState Q D E) :
    Bool × AsyncSysState Q D E :=
  let r := dispatchActual p.cfgD p.FD v {} sys.dataUnit sys.storeD
  let sys1 := { sys with dataUnit := r.state, storeD := r.store }
  let sys2 :=
    if r.state.emitCount ≠ sys.dataUnit.emitCount ∧ relationshipsWorking sys1 then
      execRelationship p 4 SysRole.data sys1
    else sys1
  (r.ok, sys2)

end SysOps

/- ----------------------------------------------------------------------
Shared helper lemmas about the engine operations.
---------------------------------------------------------------------- -/

section UnitLemmas

variable {V : Type} [DecidableEq V]
variable {cfg : UnitConfig V} {F : Flavor V} {s : UnitState V} {σ : Store V}
variable {v : V} {cr sk : Bool}

lemma updateCache_isMuted : (updateCache v cr s).isMuted = s.isMuted := by
  unfold updateCache; split_ifs <;> rfl

lemma updateCache_isFrozen : (updateCache v cr s).isFrozen = s.isFrozen := by
  unfold updateCache; split_ifs <;> rfl

lemma updateCache_emitCount : (updateCache v cr s).emitCount = s.emitCount := by
  unfold updateCache; split_ifs <;> rfl

lemma updateCache_cacheSize : (updateCache v cr s).cacheSize = s.cacheSize := by
  unfold updateCache; split_ifs <;> rfl

lemma updateCache_value : (updateCache v cr s).value = s.value := by
  unfold updateCache; split_ifs <;> rfl

lemma updateCache_initialValue : (updateCache v cr s).initialValue = s.initialValue := by
  unfold updateCache; split_ifs <;> rfl

lemma uvac_value : ((updateValueAndCache cfg F v cr sk s σ).1).value = v := by
  unfold updateValueAndCache emit; dsimp only; split_ifs <;> rfl

lemma uvac_isFrozen : ((updateValueAndCache cfg F v cr sk s σ).1).isFrozen = s.isFrozen := by
  unfold updateValueAndCache emit; dsimp only
  split_ifs <;> simp [updateCache_isFrozen]

lemma uvac_isMuted : ((updateValueAndCache cfg F v cr sk s σ).1).isMuted = s.isMuted := by
  unfold updateValueAndCache emit; dsimp only
  split_ifs <;> simp [updateCache_isMuted]

lemma uvac_initialValue :
    ((updateValueAndCache cfg F v cr sk s σ).1).initialValue = s.initialValue := by
  unfold updateValueAndCache emit; dsimp only
  split_ifs <;> simp [updateCache_initialValue]

lemma uvac_cacheSize : ((updateValueAndCache cfg F v cr sk s σ).1).cacheSize = s.cacheSize := by
  unfold updateValueAndCache emit; dsimp only
  split_ifs <;> simp [updateCache_cacheSize]

lemma uvac_emitCount (h : s.isMuted = false) :
    ((updateValueAndCache cfg F v cr sk s σ).1).emitCount = s.emitCount + 1 := by
  unfold updateValueAndCache emit; dsimp only
  split_ifs with h1 h2 h3 <;>
    simp_all [updateCache_isMuted, updateCache_emitCount]

lemma uvac_cachedValues :
    ((updateValueAndCache cfg F v cr sk s σ).1).cachedValues =
      (if sk then s else updateCache v cr s).cachedValues := by
  unfold updateValueAndCache emit; dsimp only; split_ifs <;> rfl

lemma uvac_cacheIndex :
    ((updateValueAndCache cfg F v cr sk s σ).1).cacheIndex =
      (if sk then s else updateCache v cr s).cacheIndex := by
  unfold updateValueAndCache emit; dsimp only; split_ifs <;> rfl

lemma uvac_store_not_persistent (hp : cfg.persistent = false) :
    (updateValueAndCache cfg F v cr sk s σ).2 = σ := by
  unfold updateValueAndCache updateValueInPersistentStorage; dsimp only
  split_ifs <;> simp_all

lemma uvac_store_persistent (hp : cfg.persistent = true) :
    (updateValueAndCache cfg F v cr sk s σ).2 = save cfg.id (applyFallbackValue F v) σ := by
  unfold updateValueAndCache updateValueInPersistentStorage rawValue emit; dsimp only
  split_ifs with h1 h2 h3 <;> simp_all [uvac_value]

lemma wouldDispatch_of_frozen (h : s.isFrozen = true) {force : Bool} :
    wouldDispatch cfg F s v force = false := by
  unfold wouldDispatch baseWouldDispatch
  simp [h]

lemma dispatch_ok_eq (opts : DispatchOptions) :
    (dispatch cfg F v opts s σ).ok = wouldDispatch cfg F s v opts.force := by
  unfold dispatch dispatchActual
  split_ifs with h <;> simp [h]

end UnitLemmas

/- ----------------------------------------------------------------------
Claim theorems.
---------------------------------------------------------------------- -/

/-- Claim C1: for every container (any flavor) and every proposed value `v`
dispatched without debounce, the dispatch is accepted if and only if the
container is not frozen, AND the flavor's typeValidator accepts `v`, AND
(`options.force` is true, OR (the custom-admission predicate, if configured,
returns truthy on (current, v) AND (the distinct-check is not enabled OR `v`
is not strict-equal to current))).  In particular `force` never bypasses the
typeValidator and never bypasses the frozen check. -/
theorem C1_dispatch_admission {V : Type} [DecidableEq V]
    (cfg : UnitConfig V) (F : Flavor V) (s : UnitState V) (σ : Store V)
    (v : V) (opts : DispatchOptions) :
    (dispatch cfg F v opts s σ).ok = true ↔
      (s.isFrozen = false ∧ F.isValidValue v = true ∧
        (opts.force = true ∨
          ((∀ chk, cfg.customDispatchCheck = some chk → chk (rawValue F s) v = true) ∧
            (cfg.distinctDispatchCheck ≠ some true ∨ v ≠ rawValue F s)))) := by
  rw [dispatch_ok_eq]
  unfold wouldDispatch baseWouldDispatch
  cases hf : s.isFrozen with
  | true => simp [hf]
  | false =>
    cases hv : F.isValidValue v with
    | false => simp [hv]
    | true =>
      cases hforce : opts.force with
      | true => simp [hf, hv, hforce]
      | false =>
        simp only [hf, hv, hforce, Bool.true_and, Bool.false_eq_true, if_false,
          true_and, false_or, iff_true, eq_self_iff_true]
        cases hc : cfg.customDispatchCheck with
        | none =>
          simp only [hc]
          unfold distinctCheck
          by_cases hd : cfg.distinctDispatchCheck = some true
          · simp [hd]
          · simp [hd]
        | some chk =>
          simp only [hc]
          by_cases hchk : chk (rawValue F s) v = true
          · simp only [hchk, if_true]
            unfold distinctCheck
            by_cases hd : cfg.distinctDispatchCheck = some true
            · simp [hd, hchk]
            · simp [hd, hchk]
          · simp [hchk]

/-- Claim C9 counterexample: `checkPath` accepts the one-segment path
`[-1]` (a negative number has `typeof === 'number'`), while the claim says a
path containing a negative number segment is rejected at construction. -/
theorem C9_counterexample :
    checkPathThrows [JSKey.num (-1)] = false ∧
      claimedPathFails [JSKey.num (-1)] = true := by
  constructor
  · rfl
  · simp [claimedPathFails, specSegmentOk]

/-- Claim C9 amended: Selection-path validation fails (throws) if and only
if the path is empty or some segment is neither a string nor a number; any
number segment — including negative and non-integer numbers — is accepted. -/
theorem C9_amended (path : List JSKey) :
    checkPathThrows path = (path.isEmpty || path.any (fun k => !keyIsStringOrNumber k)) := by
  unfold checkPathThrows
  cases path with
  | nil => rfl
  | cons k rest =>
    simp only [List.length_cons, List.isEmpty_cons, Bool.false_or]
    rw [if_neg (by omega)]
    rw [List.findIdx?_isSome]

/-- Claim C10: for every non-frozen, unmuted container, `clearValue` (when
it has emitted and is not already empty) and `resetValue` (when the current
value differs from the initial value) install the default/initial value
directly — for every configuration, in particular regardless of any
configured custom-admission predicate, distinct-check or typeValidator —
returning `true` and emitting exactly once. -/
theorem C10_clear_reset_bypass {V : Type} [DecidableEq V]
    (cfg : UnitConfig V) (F : Flavor V) (s : UnitState V) (σ : Store V)
    (hF : s.isFrozen = false) (hM : s.isMuted = false)
    (hE : s.emitCount ≠ 0) (hNE : isEmptyU F s = false)
    (hNI : rawValue F s ≠ initialValueRaw F s) :
    (clearValue cfg F s σ).ok = true ∧
      (clearValue cfg F s σ).state.value = F.defaultValue ∧
      (clearValue cfg F s σ).state.emitCount = s.emitCount + 1 ∧
      (resetValue cfg F s σ).ok = true ∧
      (resetValue cfg F s σ).state.value = initialValueRaw F s ∧
      (resetValue cfg F s σ).state.emitCount = s.emitCount + 1 := by
  have hcond : ¬ (s.isFrozen || (s.emitCount == 0) || isEmptyU F s) = true := by
    simp [hF, hNE, hE]
  have hcond2 : ¬ (s.isFrozen || (rawValue F s == initialValueRaw F s)) = true := by
    simp [hF, hNI]
  unfold clearValue resetValue
  rw [if_neg hcond, if_neg hcond2]
  dsimp only
  exact ⟨rfl, uvac_value, uvac_emitCount hM, rfl, uvac_value, uvac_emitCount hM⟩

/- ----------------------------------------------------------------------
Concrete NumUnit-style scenarios used by counterexamples and witnesses.
---------------------------------------------------------------------- -/

/-- A default-configured NumUnit (no options). -/
def cfgNum : UnitConfig (Option Int) := { initialValue := none }

/-- The store is irrelevant for non-persistent configurations. -/
def numStore : Store (Option Int) := emptyStore (Option Int)

/-- A freshly constructed default NumUnit: value `0`, cache `[0]`. -/
def numU0 : UnitState (Option Int) := (mkUnit cfgNum numFlavor numStore).fst

/-- Dispatch a value on a default-configured NumUnit. -/
def dispNum (v : Option Int) (s : UnitState (Option Int)) : UnitState (Option Int) :=
  (dispatch cfgNum numFlavor v {} s numStore).state

/-- After dispatching `1` then `2` (capacity 2 ⇒ cache `[1, 2]`, index 1),
`clearCache({leaveFirst: true})` leaves cache `[1]` with index 0 while the
current value stays `2`. -/
def c2state : UnitState (Option Int) :=
  (clearCache { leaveFirst := true } (dispNum (some 2) (dispNum (some 1) numU0)) numStore).state

/-- A frozen NumUnit holding `1` with `emitCount = 2`. -/
def c3frozen : UnitState (Option Int) := freeze (dispNum (some 1) numU0)

/-- A NumUnit with capacity 4. -/
def cfgNum4 : UnitConfig (Option Int) := { initialValue := none, cacheSize := some 4 }

/-- Dispatch on the capacity-4 NumUnit. -/
def dispNum4 (v : Option Int) (s : UnitState (Option Int)) : UnitState (Option Int) :=
  (dispatch cfgNum4 numFlavor v {} s numStore).state

/-- Capacity-4 NumUnit after dispatching `1, 2, 3, 4` (the construction
entry `0` was evicted): cache `[1, 2, 3, 4]`, index 3. -/
def c4filled : UnitState (Option Int) :=
  dispNum4 (some 4) (dispNum4 (some 3) (dispNum4 (some 2)
    (dispNum4 (some 1) (mkUnit cfgNum4 numFlavor numStore).fst)))

/-- The capacity-4 unit after `goBack()` twice: index 1, current `2`. -/
def c4back2 : UnitState (Option Int) :=
  (goBack cfgNum4 numFlavor
    (goBack cfgNum4 numFlavor c4filled numStore).state numStore).state

/-- The capacity-4 unit after then dispatching `5`. -/
def c4afterV5 : UnitState (Option Int) :=
  dispNum4 (some 5) c4back2

/-- A NumUnit configured with the distinct-check and an always-rejecting
custom-admission predicate. -/
def cfgC5 : UnitConfig (Option Int) :=
  { initialValue := none, distinctDispatchCheck := some true,
    customDispatchCheck := some (fun _ _ => false) }

/-- That unit freshly constructed (current value `0`), with the on-demand
events subject materialized. -/
def c5unit : UnitState (Option Int) :=
  { (mkUnit cfgC5 numFlavor numStore).fst with hasEventsSubject := true }

/-- A NumUnit configured with initial value `7` and an always-rejecting
custom-admission predicate. -/
def cfgC7 : UnitConfig (Option Int) :=
  { initialValue := some 7, customDispatchCheck := some (fun _ _ => false) }

/-- The pre-installation state the constructor builds before seeding the
value (all fields at their construction defaults, capacity 2). -/
def c7start : UnitState (Option Int) :=
  { value := none, emittedValue := none, initialValue := none, cacheSize := 2 }

/-- Claim C2 counterexample: the claim includes `clearCache` (with any
options) among the operations after which `history[historyIndex]` equals the
current value; but after dispatching `1` then `2` and calling
`clearCache({leaveFirst: true})` the history is `[1]` with `historyIndex = 0`
while the current value is still `2`. -/
theorem C2_counterexample :
    c2state.cachedValues.get? c2state.cacheIndex ≠ some c2state.value := by decide

/-- Claim C3 counterexample: the claim says every `clear` call on a frozen
container is a no-op leaving `emitCount` unchanged; but `clear()` first
unfreezes and then clears the value, emitting once (`emitCount` 2 → 3). -/
theorem C3_counterexample :
    c3frozen.isFrozen = true ∧
      (clear cfgNum numFlavor {} c3frozen numStore).state.emitCount ≠ c3frozen.emitCount := by
  decide

/-- Claim C5 counterexample: with the distinct-check enabled and a
custom-admission predicate that rejects everything, dispatching the current
value `0` is rejected with both predicates rejecting, and the emitted fail
reason is `DISTINCT_CHECK` — not `CUSTOM_DISPATCH_CHECK` as the claim says. -/
theorem C5_counterexample :
    (cfgC5.customDispatchCheck.map
        (fun chk => chk (rawValue numFlavor c5unit) (some 0))) = some false ∧
      distinctCheck cfgC5 numFlavor c5unit (some 0) = false ∧
      (dispatch cfgC5 numFlavor (some 0) {} c5unit numStore).ok = false ∧
      (dispatch cfgC5 numFlavor (some 0) {} c5unit numStore).failEvent =
        some DispatchFailReason.DISTINCT_CHECK ∧
      DispatchFailReason.DISTINCT_CHECK ≠ DispatchFailReason.CUSTOM_DISPATCH_CHECK := by
  decide

/-- Claim C7 counterexample: the configured custom-admission predicate
rejects every dispatch — `wouldDispatch` denies the initial value `7` on the
freshly built state — yet construction installs `7` as the current value
(and emits once): the initial value is not subjected to the dispatch
admission rules. -/
theorem C7_counterexample :
    wouldDispatch cfgC7 numFlavor c7start (some 7) false = false ∧
      (mkUnit cfgC7 numFlavor numStore).fst.value = some 7 ∧
      (mkUnit cfgC7 numFlavor numStore).fst.emitCount = 1 := by decide

section MoreUnitLemmas

variable {V : Type} [DecidableEq V]
variable {cfg : UnitConfig V} {F : Flavor V} {s : UnitState V} {σ : Store V} {v : V}

lemma clearValue_isFrozen : (clearValue cfg F s σ).state.isFrozen = s.isFrozen := by
  unfold clearValue
  split_ifs with h
  · rfl
  · dsimp only
    exact uvac_isFrozen

lemma resetValue_isFrozen : (resetValue cfg F s σ).state.isFrozen = s.isFrozen := by
  unfold resetValue
  split_ifs with h
  · rfl
  · dsimp only
    exact uvac_isFrozen

lemma clearCache_isFrozen {o : ClearCacheOptions} :
    (clearCache o s σ).state.isFrozen = s.isFrozen := by
  unfold clearCache
  dsimp only
  split <;> rfl

lemma unfreeze_isFrozen : (unfreeze s).isFrozen = false := by
  unfold unfreeze
  split_ifs with h
  · rfl
  · simpa using h

end MoreUnitLemmas

/-- Claim C3 amended: while a container is frozen, `dispatch`, `jump` (and
`goBack`/`goForward`/`jumpToStart`/`jumpToEnd`), `clearValue`, `resetValue`
and `clearCache` all return `false` and leave the entire state — in
particular `emitCount` — and the store unchanged; `clear()` and `reset()`
however first unfreeze the container (and may then clear/reset the value
and emit), leaving it unfrozen. -/
theorem C3_amended {V : Type} [DecidableEq V]
    (cfg : UnitConfig V) (F : Flavor V) (s : UnitState V) (σ : Store V)
    (v : V) (opts : DispatchOptions) (steps : Int) (ccOpts : ClearCacheOptions)
    (h : s.isFrozen = true) :
    ((dispatch cfg F v opts s σ).ok = false ∧ (dispatch cfg F v opts s σ).state = s ∧
        (dispatch cfg F v opts s σ).store = σ) ∧
      ((jump cfg F steps s σ).ok = false ∧ (jump cfg F steps s σ).state = s) ∧
      ((goBack cfg F s σ).ok = false ∧ (goBack cfg F s σ).state = s) ∧
      ((goForward cfg F s σ).ok = false ∧ (goForward cfg F s σ).state = s) ∧
      ((jumpToStart cfg F s σ).ok = false ∧ (jumpToStart cfg F s σ).state = s) ∧
      ((jumpToEnd cfg F s σ).ok = false ∧ (jumpToEnd cfg F s σ).state = s) ∧
      ((clearValue cfg F s σ).ok = false ∧ (clearValue cfg F s σ).state = s) ∧
      ((resetValue cfg F s σ).ok = false ∧ (resetValue cfg F s σ).state = s) ∧
      ((clearCache ccOpts s σ).ok = false ∧ (clearCache ccOpts s σ).state = s) ∧
      (clear cfg F ccOpts s σ).state.isFrozen = false ∧
      (reset cfg F ccOpts s σ).state.isFrozen = false := by
  have hw : ∀ force : Bool, wouldDispatch cfg F s v force = false := fun _ =>
    wouldDispatch_of_frozen h
  have hdisp : dispatch cfg F v opts s σ =
      { ok := false,
        failEvent :=
          if s.hasEventsSubject && !s.isMuted then some (failReason cfg F s v) else none,
        state := s, store := σ } := by
    unfold dispatch dispatchActual
    rw [if_neg (by simp [hw opts.force])]
  have hjump : ∀ steps : Int, jump cfg F steps s σ = { ok := false, state := s, store := σ } := by
    intro st
    unfold jump
    rw [if_pos h]
  refine ⟨⟨by rw [hdisp], by rw [hdisp], by rw [hdisp]⟩,
    ⟨by rw [hjump], by rw [hjump]⟩,
    ⟨by unfold goBack; rw [hjump], by unfold goBack; rw [hjump]⟩,
    ⟨by unfold goForward; rw [hjump], by unfold goForward; rw [hjump]⟩,
    ⟨by unfold jumpToStart; rw [hjump], by unfold jumpToStart; rw [hjump]⟩,
    ⟨by unfold jumpToEnd; rw [hjump], by unfold jumpToEnd; rw [hjump]⟩,
    ?_, ?_, ?_, ?_, ?_⟩
  · constructor
    · unfold clearValue; rw [if_pos (by simp [h])]
    · unfold clearValue; rw [if_pos (by simp [h])]
  · constructor
    · unfold resetValue; rw [if_pos (by simp [h])]
    · unfold resetValue; rw [if_pos (by simp [h])]
  · constructor
    · unfold clearCache; rw [if_pos (by simp [h])]
    · unfold clearCache; rw [if_pos (by simp [h])]
  · show (clearCache ccOpts (clearValue cfg F (unfreeze s) σ).state
        (clearValue cfg F (unfreeze s) σ).store).state.isFrozen = false
    rw [clearCache_isFrozen, clearValue_isFrozen, unfreeze_isFrozen]
  · show (clearCache ccOpts (resetValue cfg F (unfreeze s) σ).state
        (resetValue cfg F (unfreeze s) σ).store).state.isFrozen = false
    rw [clearCache_isFrozen, resetValue_isFrozen, unfreeze_isFrozen]

/-- Claim C4: when `historyIndex` is not at the last slot (the container was
navigated backward), an accepted dispatch without `cacheReplace` truncates
every entry after `historyIndex`, appends the new value there and advances
`historyIndex` by one; concretely, after dispatching `1..4` on a capacity-4
container, going back twice and dispatching `5`, the forward entries `3, 4`
are discarded (history is `[1, 2, 5]`) and `goForward()` returns `false`. -/
theorem C4_branch_on_new_input {V : Type} [DecidableEq V]
    (cfg : UnitConfig V) (F : Flavor V) (s : UnitState V) (σ : Store V)
    (v : V) (opts : DispatchOptions)
    (hLen : s.cachedValues.length ≠ 0)
    (hNotLast : s.cacheIndex ≠ s.cachedValues.length - 1)
    (hAcc : wouldDispatch cfg F s v opts.force = true)
    (hRepl : opts.cacheReplace = false) :
    ((dispatch cfg F v opts s σ).state.cachedValues =
        s.cachedValues.take (s.cacheIndex + 1) ++ [v] ∧
      (dispatch cfg F v opts s σ).state.cacheIndex = s.cacheIndex + 1) ∧
      c4afterV5.cachedValues = [some 1, some 2, some 5] ∧
      c4afterV5.cacheIndex = 2 ∧
      (goForward cfgNum4 numFlavor c4afterV5 numStore).ok = false := by
  refine ⟨?_, by decide, by decide, by decide⟩
  have hstate : (dispatch cfg F v opts s σ).state =
      (updateValueAndCache cfg F v opts.cacheReplace false s σ).1 := by
    unfold dispatch dispatchActual
    rw [if_pos hAcc]
  rw [hstate, uvac_cachedValues, uvac_cacheIndex, hRepl]
  have hred : (if false = true then s else updateCache v false s) = updateCache v false s := by
    simp
  rw [hred]
  unfold updateCache
  rw [if_neg (by simp), if_neg (by push_neg; exact ⟨hLen, hNotLast⟩)]
  exact ⟨rfl, rfl⟩

/-- Claim C5 amended: every rejected dispatch (with the events subject
materialized and the container unmuted) emits exactly one fail reason,
chosen in the priority order FROZEN_UNIT, INVALID_VALUE, DISTINCT_CHECK,
CUSTOM_DISPATCH_CHECK: when the distinct-check is enabled and the value is
strict-equal to the current value, the reason is DISTINCT_CHECK even if a
configured custom-admission predicate also rejects. -/
theorem C5_amended {V : Type} [DecidableEq V]
    (cfg : UnitConfig V) (F : Flavor V) (s : UnitState V) (σ : Store V)
    (v : V) (opts : DispatchOptions)
    (hRej : wouldDispatch cfg F s v opts.force = false)
    (hSubj : s.hasEventsSubject = true) (hMut : s.isMuted = false) :
    (dispatch cfg F v opts s σ).failEvent =
      some (if s.isFrozen = true then DispatchFailReason.FROZEN_UNIT
        else if F.isValidValue v = false then DispatchFailReason.INVALID_VALUE
        else if cfg.distinctDispatchCheck = some true ∧ v = rawValue F s
          then DispatchFailReason.DISTINCT_CHECK
        else DispatchFailReason.CUSTOM_DISPATCH_CHECK) := by
  unfold dispatch dispatchActual
  rw [if_neg (by simp [hRej])]
  dsimp only
  rw [if_pos (by simp [hSubj, hMut])]
  congr 1
  unfold failReason distinctCheck
  cases hf : s.isFrozen with
  | true => simp
  | false =>
    cases hv : F.isValidValue v with
    | false => simp
    | true =>
      simp only [Bool.true_eq_false, if_false, Bool.false_eq_true]
      by_cases hd : cfg.distinctDispatchCheck = some true
      · by_cases heq : v = rawValue F s
        · simp [hd, heq]
        · simp [hd, heq]
      · simp [hd]

section ConstructionLemmas

variable {V : Type} [DecidableEq V]
variable {cfg : UnitConfig V} {F : Flavor V} {σ : Store V}

lemma dispatchInitialValue_value {iv : V} {s : UnitState V} :
    ((dispatchInitialValue cfg F iv s σ).1).value =
      if iv ≠ F.undef ∧ F.isValidValue iv = true then iv else F.defaultValue := by
  unfold dispatchInitialValue
  by_cases hs : shouldDispatchInitialValue F iv = true
  · rw [if_pos hs]
    unfold shouldDispatchInitialValue at hs
    simp only [Bool.and_eq_true, decide_eq_true_eq] at hs
    rw [if_pos hs]
    dsimp only
    rw [uvac_value]
    unfold initialValueRaw applyFallbackValue
    dsimp only
    rw [if_neg hs.1]
  · rw [if_neg hs]
    unfold shouldDispatchInitialValue at hs
    simp only [Bool.and_eq_true, decide_eq_true_eq, not_and] at hs
    rw [if_neg (by intro hcon; exact absurd (hs hcon.1) (by simp [hcon.2]))]
    exact uvac_value

lemma dispatchInitialValue_emitCount {iv : V} {s : UnitState V} (hM : s.isMuted = false) :
    ((dispatchInitialValue cfg F iv s σ).1).emitCount = s.emitCount + 1 := by
  unfold dispatchInitialValue
  split_ifs with hs
  · dsimp only
    exact uvac_emitCount hM
  · exact uvac_emitCount hM

end ConstructionLemmas

/-- Claim C7 amended: the initial value supplied at construction is not
subjected to the dispatch admission pipeline; a non-persistent container
installs it as current exactly when it is defined (not `undefined`) and the
flavor's typeValidator accepts it (otherwise the flavor default is
installed), without evaluating the custom-admission predicate or the
distinct-check, and construction emits once. -/
theorem C7_amended {V : Type} [DecidableEq V]
    (cfg : UnitConfig V) (F : Flavor V) (σ : Store V)
    (hp : cfg.persistent = false) :
    ((mkUnit cfg F σ).fst.value =
        if cfg.initialValue ≠ F.undef ∧ F.isValidValue cfg.initialValue = true
        then cfg.initialValue else F.defaultValue) ∧
      (mkUnit cfg F σ).fst.emitCount = 1 := by
  unfold mkUnit
  rw [if_neg (by simp [hp])]
  exact ⟨dispatchInitialValue_value, dispatchInitialValue_emitCount rfl⟩

section PersistenceLemmas

variable {V : Type} [DecidableEq V]
variable {cfg : UnitConfig V} {F : Flavor V} {s : UnitState V} {σ : Store V} {v : V}

lemma dispatch_store_persistent {opts : DispatchOptions}
    (hp : cfg.persistent = true) (hAcc : wouldDispatch cfg F s v opts.force = true) :
    (dispatch cfg F v opts s σ).store = save cfg.id (applyFallbackValue F v) σ := by
  unfold dispatch dispatchActual
  rw [if_pos hAcc]
  dsimp only
  exact uvac_store_persistent hp

lemma mkUnit_restores_value {Y : V} (hp : cfg.persistent = true)
    (hret : retrieve cfg.id σ = some Y)
    (hDef : Y ≠ F.undef) (hValid : F.isValidValue Y = true) :
    (mkUnit cfg F σ).fst.value = Y := by
  unfold mkUnit
  rw [if_pos hp]
  unfold restoreValueFromPersistentStorage
  rw [hret]
  rw [dispatchInitialValue_value]
  rw [if_pos ⟨hDef, hValid⟩]

end PersistenceLemmas

/-- Claim C8: persistence round-trip.  For every value `Y` accepted by the
flavor's typeValidator (serialization modelled as the identity round-trip on
serializable values), constructing container A with non-empty id `k` and
`persistent = true` over store `σ0`, dispatching `Y` on A (accepted), and
then constructing container B with the same id, store and persistence
configuration yields `B.current = Y` with no explicit transfer: the accepted
dispatch writes `Y` under the namespaced key and B's construction reads it
back. -/
theorem C8_persistence_round_trip {V : Type} [DecidableEq V]
    (F : Flavor V) (cfgA cfgB : UnitConfig V) (σ0 : Store V) (Y : V) (k : String)
    (hPA : cfgA.persistent = true) (hPB : cfgB.persistent = true)
    (hIdA : cfgA.id = k) (hIdB : cfgB.id = k) (hk : k ≠ "")
    (hValid : F.isValidValue Y = true) (hDef : Y ≠ F.undef)
    (hAcc : wouldDispatch cfgA F (mkUnit cfgA F σ0).fst Y false = true) :
    (dispatch cfgA F Y {} (mkUnit cfgA F σ0).fst (mkUnit cfgA F σ0).snd).ok = true ∧
      (mkUnit cfgB F
          (dispatch cfgA F Y {} (mkUnit cfgA F σ0).fst
            (mkUnit cfgA F σ0).snd).store).fst.value = Y := by
  have hstore : (dispatch cfgA F Y {} (mkUnit cfgA F σ0).fst (mkUnit cfgA F σ0).snd).store =
      save cfgA.id (applyFallbackValue F Y) (mkUnit cfgA F σ0).snd :=
    dispatch_store_persistent hPA hAcc
  constructor
  · rw [dispatch_ok_eq]
    exact hAcc
  · rw [hstore]
    refine mkUnit_restores_value hPB ?_ hDef hValid
    unfold retrieve save
    rw [hIdA, hIdB]
    rw [if_pos rfl]
    unfold applyFallbackValue
    rw [if_neg hDef]

/-- The history invariant of Claim C2: the cache slot at `cacheIndex` holds
the current `_value`, the cache never exceeds `cacheSize`, and `cacheSize`
is at least 1. -/
def cacheInv {V : Type} (s : UnitState V) : Prop :=
  s.cachedValues[s.cacheIndex]? = some s.value ∧
    s.cachedValues.length ≤ s.cacheSize ∧ 1 ≤ s.cacheSize

section CacheInvLemmas

variable {V : Type} [DecidableEq V]
variable {cfg : UnitConfig V} {F : Flavor V} {s : UnitState V} {σ : Store V}

lemma cacheIndex_lt_of_get {a : V} (h : s.cachedValues[s.cacheIndex]? = some a) :
    s.cacheIndex < s.cachedValues.length := by
  by_contra hh
  push_neg at hh
  rw [List.getElem?_eq_none_iff.mpr hh] at h
  exact Option.noConfusion h

lemma updateCache_get (v : V) (cr : Bool)
    (hidx : s.cacheIndex < s.cachedValues.length) (hcs : 1 ≤ s.cacheSize) :
    (updateCache v cr s).cachedValues[(updateCache v cr s).cacheIndex]? = some v := by
  unfold updateCache
  cases cr with
  | true =>
    simp only [if_true]
    rw [if_pos hidx]
    exact List.getElem?_set_eq_of_lt v hidx
  | false =>
    simp only [Bool.false_eq_true, if_false]
    split_ifs with hcond hov
    · -- at the last slot, capacity exceeded: evict the head
      dsimp only
      have h1 : (List.drop 1 (s.cachedValues ++ [v])).length = s.cachedValues.length := by
        simp
      rw [h1, List.getElem?_drop]
      have h2 : 1 + (s.cachedValues.length - 1) = s.cachedValues.length := by omega
      rw [h2]
      exact List.getElem?_concat_length _ _
    · -- at the last slot, capacity not exceeded: plain append
      dsimp only
      have h1 : (s.cachedValues ++ [v]).length - 1 = s.cachedValues.length := by
        simp
      rw [h1]
      exact List.getElem?_concat_length _ _
    · -- navigated backward: truncate the forward entries
      dsimp only
      have ht : (s.cachedValues.take (s.cacheIndex + 1)).length = s.cacheIndex + 1 := by
        rw [List.length_take]
        omega
      have hcc := List.getElem?_concat_length (s.cachedValues.take (s.cacheIndex + 1)) v
      rw [ht] at hcc
      exact hcc

lemma updateCache_len (v : V) (cr : Bool)
    (hidx : s.cacheIndex < s.cachedValues.length)
    (hlen : s.cachedValues.length ≤ s.cacheSize) :
    (updateCache v cr s).cachedValues.length ≤ s.cacheSize := by
  unfold updateCache
  cases cr with
  | true =>
    simp only [if_true]
    rw [if_pos hidx]
    simpa using hlen
  | false =>
    simp only [Bool.false_eq_true, if_false]
    split_ifs with hcond hov
    · dsimp only
      simp only [List.length_drop, List.length_append, List.length_singleton] at hov ⊢
      omega
    · dsimp only
      simp only [List.length_append, List.length_singleton] at hov ⊢
      omega
    · push_neg at hcond
      dsimp only
      simp only [List.length_append, List.length_take]
      have hm : min (s.cacheIndex + 1) s.cachedValues.length = s.cacheIndex + 1 := by
        omega
      rw [hm]
      simp only [List.length_singleton]
      omega

lemma uvac_cacheInv {v : V} {cr : Bool} (h : cacheInv s) :
    cacheInv (updateValueAndCache cfg F v cr false s σ).1 := by
  obtain ⟨hget, hlen, hcs⟩ := h
  have hidx := cacheIndex_lt_of_get hget
  refine ⟨?_, ?_, ?_⟩
  · rw [uvac_cachedValues, uvac_cacheIndex, uvac_value]
    simp only [Bool.false_eq_true, if_false]
    exact updateCache_get v cr hidx hcs
  · rw [uvac_cachedValues, uvac_cacheSize]
    simp only [Bool.false_eq_true, if_false]
    exact updateCache_len v cr hidx hlen
  · rw [uvac_cacheSize]
    exact hcs

lemma updateCache_empty (v : V) (h0 : s.cachedValues = []) (hcs : 1 ≤ s.cacheSize) :
    (updateCache v false s).cachedValues = [v] ∧ (updateCache v false s).cacheIndex = 0 := by
  unfold updateCache
  simp only [Bool.false_eq_true, if_false, h0]
  have hc : ([] : List V).length = 0 ∨ s.cacheIndex = ([] : List V).length - 1 := Or.inl rfl
  rw [if_pos hc]
  have hv : ¬ s.cacheSize < (([] : List V) ++ [v]).length := by
    simp only [List.nil_append, List.length_singleton]
    omega
  rw [if_neg hv]
  constructor
  · simp
  · simp

lemma uvac_cacheInv_empty {v : V} (h0 : s.cachedValues = []) (hcs : 1 ≤ s.cacheSize) :
    cacheInv (updateValueAndCache cfg F v false false s σ).1 := by
  refine ⟨?_, ?_, ?_⟩
  · rw [uvac_cachedValues, uvac_cacheIndex, uvac_value]
    simp only [Bool.false_eq_true, if_false]
    rw [(updateCache_empty v h0 hcs).1, (updateCache_empty v h0 hcs).2]
    rfl
  · rw [uvac_cachedValues, uvac_cacheSize]
    simp only [Bool.false_eq_true, if_false]
    rw [(updateCache_empty v h0 hcs).1]
    simpa using hcs
  · rw [uvac_cacheSize]
    exact hcs

lemma dispatchInitialValue_cacheInv {iv : V}
    (h0 : s.cachedValues = []) (hcs : 1 ≤ s.cacheSize) :
    cacheInv (dispatchInitialValue cfg F iv s σ).1 := by
  unfold dispatchInitialValue
  split_ifs with hs
  · dsimp only
    exact uvac_cacheInv_empty h0 hcs
  · exact uvac_cacheInv_empty h0 hcs

lemma mkUnit_cacheInv : cacheInv (mkUnit cfg F σ).fst := by
  unfold mkUnit
  have hcs : 1 ≤ (match cfg.cacheSize with
      | some n => (max 1 n).toNat
      | none => 2) := by
    cases cfg.cacheSize with
    | none =>
      dsimp only
      omega
    | some n =>
      have h1 : (1 : Int) ≤ max 1 n := le_max_left 1 n
      have h2 := Int.toNat_le_toNat h1
      simpa using h2
  dsimp only
  split_ifs with hp
  · unfold restoreValueFromPersistentStorage
    cases hret : retrieve cfg.id σ with
    | some w => exact dispatchInitialValue_cacheInv rfl hcs
    | none => exact dispatchInitialValue_cacheInv rfl hcs
  · exact dispatchInitialValue_cacheInv rfl hcs

lemma jump_cacheInv {steps : Int} (h : cacheInv s) :
    cacheInv (jump cfg F steps s σ).state := by
  obtain ⟨hget, hlen, hcs⟩ := h
  unfold jump
  dsimp only
  split_ifs with h1 h2
  · exact ⟨hget, hlen, hcs⟩
  · exact ⟨hget, hlen, hcs⟩
  · push_neg at h2
    obtain ⟨hge, hne, hle⟩ := h2
    have hrange : ((s.cacheIndex : Int) + steps).toNat < s.cachedValues.length := by
      omega
    dsimp only
    refine ⟨?_, ?_, ?_⟩
    · rw [uvac_cachedValues, uvac_cacheIndex, uvac_value]
      rw [if_pos rfl]
      try dsimp only
      rw [List.getD_eq_getElem?_getD, List.getElem?_eq_getElem hrange]
      rfl
    · rw [uvac_cachedValues, uvac_cacheSize]
      rw [if_pos rfl]
      exact hlen
    · rw [uvac_cacheSize]
      exact hcs

lemma clearCache_len {o : ClearCacheOptions}
    (hlen : s.cachedValues.length ≤ s.cacheSize) :
    (clearCache o s σ).state.cachedValues.length ≤ s.cacheSize := by
  unfold clearCache
  dsimp only
  split
  · exact hlen
  · dsimp only
    split_ifs <;>
      simp only [List.length_append, List.length_take, List.length_drop] <;>
      omega

end CacheInvLemmas

/-- Claim C2 amended: the invariant "history[historyIndex] is strict-equal
to the current value, and len(history) ≤ capacity with capacity ≥ 1
(default 2, oldest entry evicted on overflow)" holds after construction and
is preserved by every accepted or rejected dispatch (with or without
cacheReplace), by navigation and by clearValue/resetValue; `clearCache`
preserves the length bound but can leave `historyIndex` pointing at an entry
different from the untouched current value (e.g. with `leaveFirst`), so it
is excluded from the first part of the invariant. -/
theorem C2_amended {V : Type} [DecidableEq V]
    (cfg : UnitConfig V) (F : Flavor V) (s : UnitState V) (σ σ2 : Store V)
    (v : V) (opts : DispatchOptions) (steps : Int) (ccOpts : ClearCacheOptions)
    (hInv : cacheInv s) :
    cacheInv (mkUnit cfg F σ).fst ∧
      cacheInv (dispatch cfg F v opts s σ2).state ∧
      cacheInv (jump cfg F steps s σ2).state ∧
      cacheInv (clearValue cfg F s σ2).state ∧
      cacheInv (resetValue cfg F s σ2).state ∧
      (clearCache ccOpts s σ2).state.cachedValues.length ≤ s.cacheSize := by
  refine ⟨mkUnit_cacheInv, ?_, jump_cacheInv hInv, ?_, ?_, clearCache_len hInv.2.1⟩
  · unfold dispatch dispatchActual
    split_ifs with hAcc
    · dsimp only
      exact uvac_cacheInv hInv
    · exact hInv
    · exact hInv
  · unfold clearValue
    split_ifs with hc
    · exact hInv
    · dsimp only
      exact uvac_cacheInv hInv
  · unfold resetValue
    split_ifs with hc
    · exact hInv
    · dsimp only
      exact uvac_cacheInv hInv

section SysLemmas

variable {Q D E : Type} [DecidableEq Q] [DecidableEq D] [DecidableEq E]

/-- A rejected `dispatch(false)` on an unfrozen pending unit with no custom
check can only be a distinct-check rejection, i.e. the pending member was
already `false`. -/
lemma pending_reject_raw {cfgP : UnitConfig (Option Bool)} {pu : UnitState (Option Bool)}
    (hPfroz : pu.isFrozen = false) (hPcust : cfgP.customDispatchCheck = none)
    (h : wouldDispatch cfgP boolFlavor pu (some false) false = false) :
    rawValue boolFlavor pu = some false := by
  unfold wouldDispatch baseWouldDispatch distinctCheck at h
  rw [hPcust] at h
  simp only [boolFlavor, Option.isSome_some, Bool.true_and, hPfroz, Bool.false_eq_true,
    if_false] at h
  split_ifs at h with hd
  simp only [decide_eq_false_iff_not, not_not] at h
  exact h.symm

/-- The pending-member subscription never touches the pending/data/error
members or their stores, and while the relationships are auto-paused it
performs no combined emission either. -/
lemma handlePendingEmit_spec (p : SysParams Q D E) (b : Bool) (sys : AsyncSysState Q D E)
    (hAuto : sys.relationshipsAutoPaused = true) :
    (handlePendingEmit p b sys).pendingUnit = sys.pendingUnit ∧
      (handlePendingEmit p b sys).errorUnit = sys.errorUnit ∧
      (handlePendingEmit p b sys).storeE = sys.storeE ∧
      (handlePendingEmit p b sys).dataUnit = sys.dataUnit ∧
      (handlePendingEmit p b sys).sysEmitCount = sys.sysEmitCount ∧
      (handlePendingEmit p b sys).relationshipsAutoPaused = true ∧
      (handlePendingEmit p b sys).relationshipsManuallyPaused =
        sys.relationshipsManuallyPaused := by
  unfold handlePendingEmit toggleQueryUnitFreezeMaybe relationshipsWorking sysEmit
  dsimp only
  split_ifs <;> simp_all

/-- Effects of `autoUpdatePendingValue(false)` run while the relationships
are auto-paused: the pending member ends at raw value `false`, no combined
emission happens, and the error/data members, the error store and the pause
flags are untouched (only the query member may be unfrozen by
`freezeQueryWhilePending`). -/
lemma autoUpdatePendingStep_spec (p : SysParams Q D E) (sys : AsyncSysState Q D E)
    (hAuto : sys.relationshipsAutoPaused = true)
    (hAUP : p.cfg.autoUpdatePendingValue ≠ some false)
    (hPfroz : sys.pendingUnit.isFrozen = false)
    (hPcust : p.cfgP.customDispatchCheck = none) :
    rawValue boolFlavor (autoUpdatePendingStep p false sys).pendingUnit = some false ∧
      (autoUpdatePendingStep p false sys).errorUnit = sys.errorUnit ∧
      (autoUpdatePendingStep p false sys).storeE = sys.storeE ∧
      (autoUpdatePendingStep p false sys).dataUnit = sys.dataUnit ∧
      (autoUpdatePendingStep p false sys).sysEmitCount = sys.sysEmitCount ∧
      (autoUpdatePendingStep p false sys).relationshipsAutoPaused = true ∧
      (autoUpdatePendingStep p false sys).relationshipsManuallyPaused =
        sys.relationshipsManuallyPaused := by
  unfold autoUpdatePendingStep
  rw [if_pos hAUP]
  dsimp only
  by_cases hAcc :
      wouldDispatch p.cfgP boolFlavor sys.pendingUnit (some false)
        ({} : DispatchOptions).force = true
  · -- the pending dispatch is admitted: the value becomes `some false`; the
    -- handler (if the unit emitted) is blocked from emitting by the pause
    unfold dispatchActual
    rw [if_pos hAcc]
    dsimp only
    have hval :
        ((updateValueAndCache p.cfgP boolFlavor (some false)
            ({} : DispatchOptions).cacheReplace false sys.pendingUnit sys.storeP).1).value =
          some false :=
      uvac_value
    split_ifs with hemit
    · have hspec := handlePendingEmit_spec p
        (rawValue boolFlavor
          (updateValueAndCache p.cfgP boolFlavor (some false)
            ({} : DispatchOptions).cacheReplace false sys.pendingUnit sys.storeP).1 =
            some true)
        { sys with
          pendingUnit :=
            (updateValueAndCache p.cfgP boolFlavor (some false)
              ({} : DispatchOptions).cacheReplace false sys.pendingUnit sys.storeP).1,
          storeP :=
            (updateValueAndCache p.cfgP boolFlavor (some false)
              ({} : DispatchOptions).cacheReplace false sys.pendingUnit sys.storeP).2 }
        hAuto
      obtain ⟨hh1, hh2, hh3, hh4, hh5, hh6, hh7⟩ := hspec
      refine ⟨?_, hh2, hh3, hh4, hh5, hh6, hh7⟩
      rw [hh1]
      show applyFallbackValue boolFlavor _ = some false
      rw [hval]
      rfl
    · refine ⟨?_, rfl, rfl, rfl, rfl, hAuto, rfl⟩
      show applyFallbackValue boolFlavor _ = some false
      rw [hval]
      rfl
  · -- the pending dispatch is rejected: only the distinct-check can have
    -- rejected it, so the pending member was already at `false`
    simp only [Bool.not_eq_true] at hAcc
    have hraw := pending_reject_raw hPfroz hPcust hAcc
    unfold dispatchActual
    have hn : ¬ (wouldDispatch p.cfgP boolFlavor sys.pendingUnit (some false)
        ({} : DispatchOptions).force = true) := by
      simp only [Bool.not_eq_true]
      exact hAcc
    rw [if_neg hn]
    dsimp only
    have hne : ¬ (sys.pendingUnit.emitCount ≠ sys.pendingUnit.emitCount) := by simp
    rw [if_neg hne]
    exact ⟨hraw, rfl, rfl, rfl, rfl, hAuto, rfl⟩

/-- `clearValue` on an unfrozen, previously-emitting, non-empty unit
installs the flavor default. -/
lemma clearValue_value {V : Type} [DecidableEq V]
    {cfg : UnitConfig V} {F : Flavor V} {s : UnitState V} {σ : Store V}
    (hF : s.isFrozen = false) (hE : s.emitCount ≠ 0) (hNE : isEmptyU F s = false) :
    (clearValue cfg F s σ).state.value = F.defaultValue := by
  unfold clearValue
  rw [if_neg (by simp [hF, hE, hNE])]
  dsimp only
  exact uvac_value

/-- `executeDataUnitRelationship` with `clearErrorOnData` effectively on:
exactly one combined emission, the error member cleared to its default, the
pending member at `false`. -/
lemma execData_spec (p : SysParams Q D E) (n : Nat) (sys : AsyncSysState Q D E)
    (hCEQ : p.cfg.clearErrorOnQuery ≠ some true)
    (hCED : p.cfg.clearErrorOnData ≠ some false)
    (hAUP : p.cfg.autoUpdatePendingValue ≠ some false)
    (hEfroz : sys.errorUnit.isFrozen = false)
    (hEemit : sys.errorUnit.emitCount ≠ 0)
    (hEne : isEmptyU p.FE sys.errorUnit = false)
    (hPfroz : sys.pendingUnit.isFrozen = false)
    (hPcust : p.cfgP.customDispatchCheck = none) :
    (execRelationship p (Nat.succ n) SysRole.data sys).sysEmitCount = sys.sysEmitCount + 1 ∧
      (execRelationship p (Nat.succ n) SysRole.data sys).errorUnit.value =
        p.FE.defaultValue ∧
      rawValue boolFlavor (execRelationship p (Nat.succ n) SysRole.data sys).pendingUnit =
        some false := by
  obtain ⟨hP1, hP2, hP3, hP4, hP5, hP6, hP7⟩ :=
    autoUpdatePendingStep_spec p { sys with relationshipsAutoPaused := true } rfl hAUP
      hPfroz hPcust
  unfold execRelationship
  dsimp only
  have hcc : p.cfg.clearErrorOnQuery ≠ some true ∧ p.cfg.clearErrorOnData ≠ some false :=
    ⟨hCEQ, hCED⟩
  rw [if_pos hcc]
  generalize hB : autoUpdatePendingStep p false { sys with relationshipsAutoPaused := true } =
    sysB
  rw [hB] at hP1 hP2 hP3 hP4 hP5 hP6 hP7
  try dsimp only at hP1 hP2 hP3 hP4 hP5 hP6 hP7
  rw [hP2, hP3]
  clear hB
  split_ifs with hc1 hc2 hc3 hc4 hc5 hc6
  all_goals try (exfalso; simp_all [relationshipsWorking]; done)
  all_goals
    (unfold sysEmit
     try dsimp only
     refine ⟨?_, ?_, ?_⟩
     · rw [hP5]
     · exact clearValue_value hEfroz hEemit hEne
     · exact hP1)

end SysLemmas

/-- Claim C6: for an orchestrator with `clearErrorOnData` not disabled (its
default is on), `autoUpdatePendingValue` not disabled, and not manually or
auto paused, an accepted dispatch to the data member (unmuted) while the
error member holds a non-empty value causes exactly one combined emission of
the orchestrator (not two), and in that same relationship step the error
member is cleared to its default value and the pending member ends at
`false`. -/
theorem C6_orchestrator_single_emission {Q D E : Type}
    [DecidableEq Q] [DecidableEq D] [DecidableEq E]
    (p : SysParams Q D E) (sys : AsyncSysState Q D E) (v : D)
    (hAuto : sys.relationshipsAutoPaused = false)
    (hMan : sys.relationshipsManuallyPaused = false)
    (hCEQ : p.cfg.clearErrorOnQuery ≠ some true)
    (hCED : p.cfg.clearErrorOnData ≠ some false)
    (hAUP : p.cfg.autoUpdatePendingValue ≠ some false)
    (hDmut : sys.dataUnit.isMuted = false)
    (hAccD : wouldDispatch p.cfgD p.FD sys.dataUnit v false = true)
    (hEfroz : sys.errorUnit.isFrozen = false)
    (hEemit : sys.errorUnit.emitCount ≠ 0)
    (hEne : isEmptyU p.FE sys.errorUnit = false)
    (hPfroz : sys.pendingUnit.isFrozen = false)
    (hPcust : p.cfgP.customDispatchCheck = none) :
    (systemDispatchToData p v sys).1 = true ∧
      (systemDispatchToData p v sys).2.sysEmitCount = sys.sysEmitCount + 1 ∧
      (systemDispatchToData p v sys).2.errorUnit.value = p.FE.defaultValue ∧
      rawValue boolFlavor (systemDispatchToData p v sys).2.pendingUnit = some false := by
  unfold systemDispatchToData
  dsimp only
  have hAccD2 : wouldDispatch p.cfgD p.FD sys.dataUnit v
      ({} : DispatchOptions).force = true := hAccD
  unfold dispatchActual
  rw [if_pos hAccD2]
  dsimp only
  have hcnt :
      ((updateValueAndCache p.cfgD p.FD v ({} : DispatchOptions).cacheReplace false
          sys.dataUnit sys.storeD).1).emitCount = sys.dataUnit.emitCount + 1 :=
    uvac_emitCount hDmut
  have hcond :
      ((updateValueAndCache p.cfgD p.FD v ({} : DispatchOptions).cacheReplace false
          sys.dataUnit sys.storeD).1).emitCount ≠ sys.dataUnit.emitCount ∧
        relationshipsWorking
          { sys with
            dataUnit :=
              (updateValueAndCache p.cfgD p.FD v ({} : DispatchOptions).cacheReplace false
                sys.dataUnit sys.storeD).1,
            storeD :=
              (updateValueAndCache p.cfgD p.FD v ({} : DispatchOptions).cacheReplace false
                sys.dataUnit sys.storeD).2 } = true := by
    constructor
    · rw [hcnt]
      omega
    · simp [relationshipsWorking, hAuto, hMan]
  rw [if_pos hcond]
  have hspec := execData_spec p 3
    { sys with
      dataUnit :=
        (updateValueAndCache p.cfgD p.FD v ({} : DispatchOptions).cacheReplace false
          sys.dataUnit sys.storeD).1,
      storeD :=
        (updateValueAndCache p.cfgD p.FD v ({} : DispatchOptions).cacheReplace false
          sys.dataUnit sys.storeD).2 }
    hCEQ hCED hAUP hEfroz hEemit hEne hPfroz hPcust
  exact ⟨rfl, hspec.1, hspec.2.1, hspec.2.2⟩

/- ----------------------------------------------------------------------
Witnesses: each claim theorem with hypotheses applied at a concrete input.
---------------------------------------------------------------------- -/

/-- Concrete member units for the orchestrator witness. -/
def unitC6 (v : Option Int) : UnitState (Option Int) :=
  { value := v, emittedValue := v, cachedValues := [v], cacheIndex := 0,
    initialValue := none, emitCount := 1, cacheSize := 2 }

/-- Concrete pending member (currently `true`) for the orchestrator witness. -/
def pendC6 : UnitState (Option Bool) :=
  { value := some true, emittedValue := some true, cachedValues := [some true],
    cacheIndex := 0, initialValue := none, emitCount := 1, cacheSize := 2 }

/-- Concrete orchestrator parameters: NumUnit-like members, all defaults. -/
def pC6 : SysParams (Option Int) (Option Int) (Option Int) :=
  { FQ := numFlavor, FD := numFlavor, FE := numFlavor,
    cfgQ := { initialValue := none }, cfgD := { initialValue := none },
    cfgE := { initialValue := none }, cfgP := { initialValue := none },
    cfg := {} }

/-- Concrete orchestrator state: error member holds `7`, pending is `true`. -/
def sysC6 : AsyncSysState (Option Int) (Option Int) (Option Int) :=
  { queryUnit := unitC6 none, dataUnit := unitC6 none, errorUnit := unitC6 (some 7),
    pendingUnit := pendC6,
    storeQ := emptyStore (Option Int), storeD := emptyStore (Option Int),
    storeE := emptyStore (Option Int), storeP := emptyStore (Option Bool) }

/-- Concrete persistent NumUnit configuration with id "k". -/
def cfgPers : UnitConfig (Option Int) :=
  { id := "k", persistent := true, initialValue := none }

/-- Claim C2 witness: the amended invariant theorem applied to a freshly
constructed default NumUnit. -/
theorem C2_witness :
    cacheInv numU0 ∧
      (cacheInv (mkUnit cfgNum numFlavor numStore).fst ∧
        cacheInv (dispatch cfgNum numFlavor (some 5) {} numU0 numStore).state ∧
        cacheInv (jump cfgNum numFlavor (-1) numU0 numStore).state ∧
        cacheInv (clearValue cfgNum numFlavor numU0 numStore).state ∧
        cacheInv (resetValue cfgNum numFlavor numU0 numStore).state ∧
        (clearCache {} numU0 numStore).state.cachedValues.length ≤ numU0.cacheSize) :=
  ⟨by unfold cacheInv; decide,
    C2_amended cfgNum numFlavor numU0 numStore numStore (some 5) {} (-1) {}
      (by unfold cacheInv; decide)⟩

/-- Claim C3 witness: the frozen no-op theorem applied to a concrete frozen
NumUnit; `clear()` leaves it unfrozen. -/
theorem C3_witness :
    c3frozen.isFrozen = true ∧
      (clear cfgNum numFlavor {} c3frozen numStore).state.isFrozen = false :=
  ⟨by decide,
    (C3_amended cfgNum numFlavor c3frozen numStore (some 9) {} (-1) {}
        (by decide)).2.2.2.2.2.2.2.2.2.1⟩

/-- Claim C4 witness: the truncation theorem applied at the concrete
backward-navigated capacity-4 unit. -/
theorem C4_witness :
    (dispatch cfgNum4 numFlavor (some 5) {} c4back2 numStore).state.cachedValues =
      c4back2.cachedValues.take (c4back2.cacheIndex + 1) ++ [some 5] :=
  (C4_branch_on_new_input cfgNum4 numFlavor c4back2 numStore (some 5) {}
      (by decide) (by decide) (by decide) rfl).1.1

/-- Claim C5 witness: the amended fail-reason theorem applied at the
concrete doubly-rejecting unit. -/
theorem C5_witness :
    (dispatch cfgC5 numFlavor (some 0) {} c5unit numStore).failEvent =
      some (if c5unit.isFrozen = true then DispatchFailReason.FROZEN_UNIT
        else if numFlavor.isValidValue (some 0) = false then DispatchFailReason.INVALID_VALUE
        else if cfgC5.distinctDispatchCheck = some true ∧ some 0 = rawValue numFlavor c5unit
          then DispatchFailReason.DISTINCT_CHECK
        else DispatchFailReason.CUSTOM_DISPATCH_CHECK) :=
  C5_amended cfgC5 numFlavor c5unit numStore (some 0) {} (by decide) rfl rfl

/-- Claim C6 witness: the orchestrator theorem applied at the concrete
system with a non-empty error member and pending `true`. -/
theorem C6_witness :
    (systemDispatchToData pC6 (some 5) sysC6).1 = true ∧
      (systemDispatchToData pC6 (some 5) sysC6).2.sysEmitCount = sysC6.sysEmitCount + 1 ∧
      (systemDispatchToData pC6 (some 5) sysC6).2.errorUnit.value = pC6.FE.defaultValue ∧
      rawValue boolFlavor (systemDispatchToData pC6 (some 5) sysC6).2.pendingUnit =
        some false :=
  C6_orchestrator_single_emission pC6 sysC6 (some 5) rfl rfl (by decide) (by decide)
    (by decide) rfl (by decide) rfl (by decide) (by decide) rfl rfl

/-- Claim C7 witness: the amended construction theorem applied at the
always-rejecting configuration with initial value `7`. -/
theorem C7_witness :
    ((mkUnit cfgC7 numFlavor numStore).fst.value =
        if cfgC7.initialValue ≠ numFlavor.undef ∧
            numFlavor.isValidValue cfgC7.initialValue = true
        then cfgC7.initialValue else numFlavor.defaultValue) ∧
      (mkUnit cfgC7 numFlavor numStore).fst.emitCount = 1 :=
  C7_amended cfgC7 numFlavor numStore rfl

/-- Claim C8 witness: the round-trip theorem applied with id "k" and value
`42` over an empty store. -/
theorem C8_witness :
    (mkUnit cfgPers numFlavor
        (dispatch cfgPers numFlavor (some 42) {} (mkUnit cfgPers numFlavor numStore).fst
          (mkUnit cfgPers numFlavor numStore).snd).store).fst.value = some 42 :=
  (C8_persistence_round_trip numFlavor cfgPers cfgPers numStore (some 42) "k"
      rfl rfl rfl rfl (by decide) (by decide) (by decide) (by decide)).2

/-- Claim C10 witness: clearValue/resetValue succeed on a unit holding `3`
even though its configuration carries an always-rejecting custom-admission
predicate and the distinct-check. -/
theorem C10_witness :
    (clearValue cfgC5 numFlavor (dispNum (some 3) numU0) numStore).ok = true ∧
      (clearValue cfgC5 numFlavor (dispNum (some 3) numU0) numStore).state.value =
        numFlavor.defaultValue ∧
      (clearValue cfgC5 numFlavor (dispNum (some 3) numU0) numStore).state.emitCount =
        (dispNum (some 3) numU0).emitCount + 1 ∧
      (resetValue cfgC5 numFlavor (dispNum (some 3) numU0) numStore).ok = true ∧
      (resetValue cfgC5 numFlavor (dispNum (some 3) numU0) numStore).state.value =
        initialValueRaw numFlavor (dispNum (some 3) numU0) ∧
      (resetValue cfgC5 numFlavor (dispNum (some 3) numU0) numStore).state.emitCount =
        (dispNum (some 3) numU0).emitCount + 1 :=
  C10_clear_reset_bypass cfgC5 numFlavor (dispNum (some 3) numU0) numStore
    (by decide) (by decide) (by decide) (by decide) (by decide)
